import Mathlib

/-!
Shallow embedding of `target/hexagon/cpu.c` (QEMU Hexagon CPU core):
register file, predicate aliasing, debug dump formatter, stack-pointer
adjustment, fault classification and the reset/realize lifecycle.

Machine words are modelled as `Nat` reduced modulo `2^32`
(`target_ulong` is 32 bits on Hexagon).
-/

/-- Truncation to a 32-bit machine word (`target_ulong`). -/
def w32 (n : Nat) : Nat := n % 4294967296

/-- Tininess detection mode of the softfloat status word. -/
inductive Tininess where
  | beforeRounding
  | afterRounding
deriving DecidableEq, Repr

/-- The slice of softfloat's `float_status` that this file touches:
`set_default_nan_mode` and `set_float_detect_tininess` each set one field;
rounding mode and accumulated exception flags are carried along untouched. -/
structure FloatStatus where
  default_nan_mode : Bool
  float_detect_tininess : Tininess
  float_rounding_mode : Nat
  float_exception_flags : Nat
deriving DecidableEq, Repr

/-- `CPUHexagonState`: the per-thread register file (`gpr`, indexed over the
64-entry per-thread register space), the four predicate bytes (`pred`),
the softfloat status, the recorded stack base (`stack_start`) and the
dump de-duplication cursor (`last_pc_dumped`). -/
structure CPUHexagonState where
  gpr : Nat → Nat
  pred : Nat → Nat
  fp_status : FloatStatus
  stack_start : Nat
  last_pc_dumped : Nat

/-- `HexagonCPU`: the CPU object holding the state plus the two qdev
properties `lldb-compat` and `lldb-stack-adjust`. -/
structure HexagonCPU where
  env : CPUHexagonState
  lldb_compat : Bool
  lldb_stack_adjust : Nat

/-- Number of per-thread registers (`TOTAL_PER_THREAD_REGS`). -/
def TOTAL_PER_THREAD_REGS : Nat := 64

/-- Number of predicate registers (`NUM_PREGS`). -/
def NUM_PREGS : Nat := 4

/- Register indices, following the `hexagon_regnames` table in the source
(indices 32.. name sa0, lc0, sa1, lc1, p3_0, c5, m0, m1, usr, pc, ugp, gp,
cs0, cs1, ...). -/

def HEX_REG_SA0 : Nat := 32
def HEX_REG_LC0 : Nat := 33
def HEX_REG_SA1 : Nat := 34
def HEX_REG_LC1 : Nat := 35
def HEX_REG_P3_0 : Nat := 36
def HEX_REG_M0 : Nat := 38
def HEX_REG_M1 : Nat := 39
def HEX_REG_USR : Nat := 40
def HEX_REG_PC : Nat := 41
def HEX_REG_UGP : Nat := 42
def HEX_REG_GP : Nat := 43
def HEX_REG_CS0 : Nat := 44
def HEX_REG_CS1 : Nat := 45

/-- The `hexagon_regnames` table. -/
def hexagon_regnames : List String :=
  ["r0", "r1", "r2", "r3", "r4", "r5", "r6", "r7",
   "r8", "r9", "r10", "r11", "r12", "r13", "r14", "r15",
   "r16", "r17", "r18", "r19", "r20", "r21", "r22", "r23",
   "r24", "r25", "r26", "r27", "r28", "r29", "r30", "r31",
   "sa0", "lc0", "sa1", "lc1", "p3_0", "c5", "m0", "m1",
   "usr", "pc", "ugp", "gp", "cs0", "cs1", "c14", "c15",
   "c16", "c17", "c18", "c19", "pkt_cnt", "insn_cnt", "c22", "c23",
   "c24", "c25", "c26", "c27", "c28", "c29", "c30", "c31"]

/-- `adjust_stack_ptrs`: if `lldb_stack_adjust` is zero return `addr`
unchanged; otherwise, if `stack_start + 0x1000 >= addr` and
`addr >= stack_start - 0x10000` (32-bit unsigned arithmetic), return
`addr - lldb_stack_adjust` (32-bit wrap-around subtraction), else `addr`. -/
def adjust_stack_ptrs (cpu : HexagonCPU) (addr : Nat) : Nat :=
  let stack_adjust := cpu.lldb_stack_adjust
  let stack_start := cpu.env.stack_start
  let stack_size : Nat := 0x10000
  if stack_adjust = 0 then
    addr
  else if addr ≤ w32 (stack_start + 0x1000) ∧
          w32 (stack_start + (4294967296 - stack_size)) ≤ addr then
    w32 (addr + (4294967296 - w32 stack_adjust))
  else
    addr

/-- `read_p3_0`: fold the four predicate bytes into one word, iterating
`i = NUM_PREGS-1` down to `0` with `reg := (reg << 8) | (pred[i] & 0xff)`. -/
def read_p3_0 (env : CPUHexagonState) : Nat :=
  List.foldl (fun acc i => w32 (acc <<< 8) ||| (env.pred i % 256)) 0 [3, 2, 1, 0]

/-- One hexadecimal digit (lowercase), as printed by `%x`. -/
def hexDigit (n : Nat) : Char :=
  if n < 10 then Char.ofNat (48 + n) else Char.ofNat (87 + n)

/-- `TARGET_FMT_lx` rendering: 8 zero-padded lowercase hex digits of a
32-bit word. -/
def hex8 (n : Nat) : String :=
  String.mk ((List.range 8).map (fun i => hexDigit (n / 16 ^ (7 - i) % 16)))

/-- `print_reg`: the line printed for one register; the value is the packed
predicate word for `HEX_REG_P3_0`, the stack-adjusted value for indices
below 32, and the raw register value otherwise. -/
def print_reg (cpu : HexagonCPU) (regnum : Nat) : String :=
  let value :=
    if regnum = HEX_REG_P3_0 then read_p3_0 cpu.env
    else if regnum < 32 then adjust_stack_ptrs cpu (cpu.env.gpr regnum)
    else cpu.env.gpr regnum
  "  " ++ hexagon_regnames.getD regnum "" ++ " = 0x" ++ hex8 value

/-- The sequence of lines emitted by a non-suppressed `hexagon_dump`
(`CONFIG_USER_ONLY` build): header, `r0..r31`, the fixed control-register
sequence, the four user-mode placeholder lines, footer. -/
def dumpLines (cpu : HexagonCPU) : List String :=
  ["General Purpose Registers = \x7b"]
  ++ (List.range 32).map (fun i => print_reg cpu i)
  ++ [print_reg cpu HEX_REG_SA0, print_reg cpu HEX_REG_LC0,
      print_reg cpu HEX_REG_SA1, print_reg cpu HEX_REG_LC1,
      print_reg cpu HEX_REG_M0, print_reg cpu HEX_REG_M1,
      print_reg cpu HEX_REG_USR, print_reg cpu HEX_REG_P3_0,
      print_reg cpu HEX_REG_GP, print_reg cpu HEX_REG_UGP,
      print_reg cpu HEX_REG_PC]
  ++ ["  cause = 0x000000db", "  badva = 0x00000000",
      "  cs0 = 0x00000000", "  cs1 = 0x00000000"]
  ++ ["\x7d"]

/-- `hexagon_dump`: with `lldb_compat` set and the current PC equal to
`last_pc_dumped`, return without output; otherwise (recording the PC into
`last_pc_dumped` only when `lldb_compat` is set) emit the register dump.
Result: the updated CPU and the emitted lines. -/
def hexagon_dump (cpu : HexagonCPU) : HexagonCPU × List String :=
  if cpu.lldb_compat ∧ cpu.env.gpr HEX_REG_PC = cpu.env.last_pc_dumped then
    (cpu, [])
  else
    let cpu1 :=
      if cpu.lldb_compat then
        { cpu with env := { cpu.env with
            last_pc_dumped := cpu.env.gpr HEX_REG_PC } }
      else cpu
    (cpu1, dumpLines cpu)

/-- `hexagon_cpu_set_pc`: store the (64-bit `vaddr`) value into the 32-bit
PC register. -/
def hexagon_cpu_set_pc (cpu : HexagonCPU) (value : Nat) : HexagonCPU :=
  { cpu with env := { cpu.env with
      gpr := fun i => if i = HEX_REG_PC then w32 value else cpu.env.gpr i } }

/-- The slice of a `TranslationBlock` this file reads: its `pc`. -/
structure TranslationBlock where
  pc : Nat

/-- `hexagon_cpu_synchronize_from_tb`: overwrite the PC with `tb->pc`. -/
def hexagon_cpu_synchronize_from_tb (cpu : HexagonCPU)
    (tb : TranslationBlock) : HexagonCPU :=
  { cpu with env := { cpu.env with
      gpr := fun i => if i = HEX_REG_PC then tb.pc else cpu.env.gpr i } }

/-- `restore_state_to_opc`: overwrite the PC with `data[0]`. -/
def restore_state_to_opc (cpu : HexagonCPU) (data : Nat → Nat) : HexagonCPU :=
  { cpu with env := { cpu.env with
      gpr := fun i => if i = HEX_REG_PC then data 0 else cpu.env.gpr i } }

/-- `hexagon_cpu_reset`: chain to the parent reset, then enable default-NaN
mode and tininess-before-rounding in `fp_status`.
Modelled from the spec: `mcc->parent_reset` (the generic CPU/device reset,
not in this source file) does not touch the architectural register file,
so it is modelled as the identity on `CPUHexagonState`. -/
def hexagon_cpu_reset (cpu : HexagonCPU) : HexagonCPU :=
  { cpu with env := { cpu.env with
      fp_status := { cpu.env.fp_status with
        default_nan_mode := true
        float_detect_tininess := Tininess.beforeRounding } } }

/-- The observable steps of `hexagon_cpu_realize`, in call order:
`cpu_exec_realizefn`, `qemu_init_vcpu`, `cpu_reset`, `mcc->parent_realize`. -/
inductive RealizeEvent where
  | execRealizefn
  | initVcpu
  | resetCall
  | parentRealize
deriving DecidableEq, BEq, Repr

/-- Outcome of `hexagon_cpu_realize`: the resulting CPU, whether the core
was handed to the vCPU scheduler, whether realization completed (the
`parent_realize` transition ran), and the trace of steps taken. -/
structure RealizeResult where
  cpu : HexagonCPU
  scheduled : Bool
  realized : Bool
  events : List RealizeEvent

/-- `hexagon_cpu_realize`: call `cpu_exec_realizefn`; on failure propagate
the error and return; on success call `qemu_init_vcpu` (request scheduling),
`cpu_reset` (which runs `hexagon_cpu_reset`), then `mcc->parent_realize`.
Modelled from the spec for the external collaborators: `cpu_exec_realizefn`
may fail (`execOk`), `qemu_init_vcpu` requests scheduling, and
`parent_realize` completes the transition to Realized; none of them writes
the architectural register file. -/
def hexagon_cpu_realize (cpu : HexagonCPU) (execOk : Bool) : RealizeResult :=
  if execOk then
    { cpu := hexagon_cpu_reset cpu
      scheduled := true
      realized := true
      events := [RealizeEvent.execRealizefn, RealizeEvent.initVcpu,
                 RealizeEvent.resetCall, RealizeEvent.parentRealize] }
  else
    { cpu := cpu, scheduled := false, realized := false
      events := [RealizeEvent.execRealizefn] }

/-- The three MMU access kinds distinguished by `hexagon_tlb_fill`. -/
inductive MMUAccessType where
  | instFetch
  | dataLoad
  | dataStore
deriving DecidableEq, Repr

/-- Exception causes assigned by `hexagon_tlb_fill`.
Modelled from the spec: the numeric `HEX_EXCP_*` constants live in a header
that is not part of this source slice; per the spec they are three distinct
causes (fetch denied by unprivileged page table, privileged read denied to
user, privileged write denied to user), so they are modelled as distinct
constructors. -/
inductive HexExcp where
  | fetchNoUPage
  | privNoURead
  | privNoUWrite
deriving DecidableEq, Repr

/-- The non-local transfer performed by `cpu_loop_exit_restore`: the cause
recorded in `cs->exception_index` and the restart address. -/
structure FaultExit where
  cause : HexExcp
  retaddr : Nat
deriving DecidableEq, Repr

/-- `hexagon_tlb_fill` (`CONFIG_USER_ONLY` build): classify the access kind
into an exception cause and perform the one non-local exit
(`cpu_loop_exit_restore(cs, retaddr)`); the function never returns
normally, which the embedding captures by returning the `FaultExit`
payload as its only result. -/
def hexagon_tlb_fill (access_type : MMUAccessType) (retaddr : Nat) : FaultExit :=
  let cause :=
    match access_type with
    | MMUAccessType.instFetch => HexExcp.fetchNoUPage
    | MMUAccessType.dataLoad => HexExcp.privNoURead
    | MMUAccessType.dataStore => HexExcp.privNoUWrite
  { cause := cause, retaddr := retaddr }

/- Concrete states used by witnesses and counterexamples. -/

/-- A zeroed register file with a neutral float status. -/
def zeroEnv : CPUHexagonState :=
  { gpr := fun _ => 0
    pred := fun _ => 0
    fp_status :=
      { default_nan_mode := false
        float_detect_tininess := Tininess.afterRounding
        float_rounding_mode := 0
        float_exception_flags := 0 }
    stack_start := 0
    last_pc_dumped := 0 }

/-- CPU with `stack_start = 0x10000000`, `lldb-stack-adjust = 0x100` and
the PC sitting at the stack base (inside the adjustment window). -/
def cpuAdj : HexagonCPU :=
  { env := { zeroEnv with
      gpr := fun i => if i = HEX_REG_PC then 0x10000000 else 0
      stack_start := 0x10000000 }
    lldb_compat := false
    lldb_stack_adjust := 0x100 }

/-- CPU in lldb-compat mode whose PC already equals `last_pc_dumped`. -/
def cpuSupp : HexagonCPU :=
  { env := zeroEnv, lldb_compat := true, lldb_stack_adjust := 0 }

/-- CPU in lldb-compat mode whose PC (4) differs from `last_pc_dumped` (0). -/
def cpuNC : HexagonCPU :=
  { env := { zeroEnv with gpr := fun i => if i = HEX_REG_PC then 4 else 0 }
    lldb_compat := true
    lldb_stack_adjust := 0 }

/-- CPU with lldb-compat off and PC (5) different from `last_pc_dumped` (0). -/
def cpuNC5 : HexagonCPU :=
  { env := { zeroEnv with gpr := fun i => if i = HEX_REG_PC then 5 else 0 }
    lldb_compat := false
    lldb_stack_adjust := 0 }

/-- Register file with distinct predicate bytes `17, 34, 51, 68`. -/
def envPred : CPUHexagonState :=
  { zeroEnv with pred := fun i => (i + 1) * 17 }

/-- CPU whose r29 (stack-pointer register) holds `0x7000` while
`stack_start` is 0. -/
def cpuR : HexagonCPU :=
  { env := { zeroEnv with gpr := fun i => if i = 29 then 0x7000 else 0 }
    lldb_compat := false
    lldb_stack_adjust := 0 }

/- Helper lemmas shared by the claim theorems. -/

lemma pred_mod_lt (env : CPUHexagonState) (k : Nat) : env.pred k % 256 < 256 :=
  Nat.mod_lt _ (by omega)

lemma shift8_or_eq (a b : Nat) (hb : b < 256) (ha : a < 16777216) :
    w32 (a <<< 8) ||| b = a * 256 + b := by
  rw [Nat.shiftLeft_eq]
  have h1 : a * 2 ^ 8 < 4294967296 := by omega
  rw [w32, Nat.mod_eq_of_lt h1]
  have h2 : b < 2 ^ 8 := by omega
  have h3 := (Nat.mul_add_lt_is_or h2 a).symm
  rw [Nat.mul_comm a (2 ^ 8), h3]
  omega

lemma read_p3_0_eq (env : CPUHexagonState) :
    read_p3_0 env =
      ((env.pred 3 % 256 * 256 + env.pred 2 % 256) * 256 + env.pred 1 % 256)
        * 256 + env.pred 0 % 256 := by
  have hb := pred_mod_lt env
  simp only [read_p3_0, List.foldl]
  rw [shift8_or_eq 0 _ (hb 3) (by omega)]
  rw [shift8_or_eq _ _ (hb 2) (by have := hb 3; omega)]
  rw [shift8_or_eq _ _ (hb 1) (by have := hb 3; have := hb 2; omega)]
  rw [shift8_or_eq _ _ (hb 0) (by have := hb 3; have := hb 2; have := hb 1; omega)]
  omega

/-- C1: with a zero `stackTraceAdjustment` every value is returned
unchanged; with a nonzero adjustment, values inside the inclusive window
`[stackBase - 0x10000, stackBase + 0x1000]` (32-bit unsigned arithmetic)
are returned decreased by the adjustment and values outside it unchanged;
in particular with `stackBase = 0x1000_0000`, adjustment `0x100`:
`adjust(0x1000_0000) = 0x0FFF_FF00`, `adjust(0x0FFF_0000) = 0x0FFE_FF00`,
and `adjust(0x0FFF_0000 - 1)` is unchanged. -/
theorem C1_adjust_window (cpu : HexagonCPU) (v : Nat) (hv : v < 4294967296)
    (ha : cpu.lldb_stack_adjust < 4294967296)
    (hle : cpu.lldb_stack_adjust ≤ v) :
    (cpu.lldb_stack_adjust = 0 → adjust_stack_ptrs cpu v = v) ∧
    (cpu.lldb_stack_adjust ≠ 0 →
      ((w32 (cpu.env.stack_start + 0xffff0000) ≤ v ∧
          v ≤ w32 (cpu.env.stack_start + 0x1000)) →
        adjust_stack_ptrs cpu v = v - cpu.lldb_stack_adjust) ∧
      (¬(w32 (cpu.env.stack_start + 0xffff0000) ≤ v ∧
          v ≤ w32 (cpu.env.stack_start + 0x1000)) →
        adjust_stack_ptrs cpu v = v)) ∧
    adjust_stack_ptrs cpuAdj 0x10000000 = 0x0fffff00 ∧
    adjust_stack_ptrs cpuAdj 0x0fff0000 = 0x0ffeff00 ∧
    adjust_stack_ptrs cpuAdj 0x0ffeffff = 0x0ffeffff := by
  refine ⟨fun h0 => by simp [adjust_stack_ptrs, h0], fun hne => ⟨?_, ?_⟩,
          by decide, by decide, by decide⟩
  · intro hw
    rw [adjust_stack_ptrs]
    simp only [if_neg hne]
    rw [if_pos ⟨hw.2, hw.1⟩]
    simp only [w32] at *
    omega
  · intro hw
    rw [adjust_stack_ptrs]
    simp only [if_neg hne]
    rw [if_neg (fun hc => hw ⟨hc.2, hc.1⟩)]

/-- C2 counterexample: with adjustment `0x100`, stack base `0x1000_0000`
and the PC at `0x1000_0000` (inside the window, where the adjustment
function yields `0x0FFF_FF00`), the dump formats the PC as its raw value
`0x10000000`, so the PC is not passed through the adjustment function. -/
theorem C2_pc_not_adjusted_counterexample :
    cpuAdj.lldb_stack_adjust ≠ 0 ∧
    adjust_stack_ptrs cpuAdj (cpuAdj.env.gpr HEX_REG_PC) = 0x0fffff00 ∧
    print_reg cpuAdj HEX_REG_PC = "  pc = 0x10000000" := by
  refine ⟨by decide, by decide, by decide⟩

/-- C2 amended: the register dump prints the PC raw, never passing it
through the stack-pointer adjustment function (only registers with index
below 32 are adjusted). -/
theorem C2_pc_printed_raw (cpu : HexagonCPU) :
    print_reg cpu HEX_REG_PC = "  pc = 0x" ++ hex8 (cpu.env.gpr HEX_REG_PC) :=
  rfl

/-- C3: for predicate bytes `p0,p1,p2,p3`, the packed alias `p3_0` has
`p0` in byte 0, `p1` in byte 1, `p2` in byte 2, `p3` in byte 3, and no
bits above bit 31. -/
theorem C3_p3_0_packing (env : CPUHexagonState)
    (h0 : env.pred 0 < 256) (h1 : env.pred 1 < 256)
    (h2 : env.pred 2 < 256) (h3 : env.pred 3 < 256) :
    read_p3_0 env % 256 = env.pred 0 ∧
    read_p3_0 env / 256 % 256 = env.pred 1 ∧
    read_p3_0 env / 65536 % 256 = env.pred 2 ∧
    read_p3_0 env / 16777216 % 256 = env.pred 3 ∧
    read_p3_0 env < 4294967296 := by
  rw [read_p3_0_eq env]
  rw [Nat.mod_eq_of_lt h0, Nat.mod_eq_of_lt h1, Nat.mod_eq_of_lt h2,
      Nat.mod_eq_of_lt h3]
  refine ⟨by omega, by omega, by omega, by omega, by omega⟩

/-- C3 witness: packing the concrete predicate bytes `17, 34, 51, 68`. -/
theorem C3_p3_0_packing_witness :
    read_p3_0 envPred % 256 = envPred.pred 0 ∧
    read_p3_0 envPred / 256 % 256 = envPred.pred 1 ∧
    read_p3_0 envPred / 65536 % 256 = envPred.pred 2 ∧
    read_p3_0 envPred / 16777216 % 256 = envPred.pred 3 ∧
    read_p3_0 envPred < 4294967296 :=
  C3_p3_0_packing envPred (by decide) (by decide) (by decide) (by decide)

/-- C4 counterexample: in a state whose PC already equals
`lastDumpedProgramCounter` (e.g. the zeroed initial state), the first
dump call in compat mode is itself suppressed and produces no output. -/
theorem C4_first_call_suppressed_counterexample :
    cpuSupp.lldb_compat = true ∧ (hexagon_dump cpuSupp).2 = [] :=
  ⟨rfl, by decide⟩

/-- C4 amended: if the PC differs from `lastDumpedProgramCounter`, two
consecutive dumps with `debugCompatibilityMode = true` and an unchanged PC
produce output on the first call and none on the second; with the mode
off, both calls produce output. -/
theorem C4_dump_dedup (cpu : HexagonCPU) :
    (cpu.lldb_compat = true →
      cpu.env.gpr HEX_REG_PC ≠ cpu.env.last_pc_dumped →
      (hexagon_dump cpu).2 ≠ [] ∧
      (hexagon_dump cpu).1.env.gpr HEX_REG_PC = cpu.env.gpr HEX_REG_PC ∧
      (hexagon_dump (hexagon_dump cpu).1).2 = []) ∧
    (cpu.lldb_compat = false →
      (hexagon_dump cpu).2 ≠ [] ∧
      (hexagon_dump cpu).1.env.gpr HEX_REG_PC = cpu.env.gpr HEX_REG_PC ∧
      (hexagon_dump (hexagon_dump cpu).1).2 ≠ []) := by
  constructor
  · intro hc hne
    simp [hexagon_dump, dumpLines, hc, hne]
  · intro hc
    simp [hexagon_dump, dumpLines, hc]

/-- C4 witness: concrete compat-mode state with PC 4 and last-dumped 0. -/
theorem C4_dump_dedup_witness :
    (hexagon_dump cpuNC).2 ≠ [] ∧
    (hexagon_dump cpuNC).1.env.gpr HEX_REG_PC = cpuNC.env.gpr HEX_REG_PC ∧
    (hexagon_dump (hexagon_dump cpuNC).1).2 = [] :=
  (C4_dump_dedup cpuNC).1 (by decide) (by decide)

/-- C5 counterexample: with `debugCompatibilityMode = false` a dump that
produces output leaves `lastDumpedProgramCounter` untouched (0) although
the PC is 5. -/
theorem C5_no_update_when_compat_off_counterexample :
    cpuNC5.lldb_compat = false ∧
    (hexagon_dump cpuNC5).2 ≠ [] ∧
    (hexagon_dump cpuNC5).1.env.last_pc_dumped = 0 ∧
    cpuNC5.env.gpr HEX_REG_PC = 5 :=
  ⟨rfl, by decide, by decide, by decide⟩

/-- C5 amended: `lastDumpedProgramCounter` is dump's only side effect on
the state, and it is set to the current PC exactly when
`debugCompatibilityMode` is true and the dump is not suppressed; with the
mode off (or when suppressed) the state is unchanged entirely. -/
theorem C5_dump_frame (cpu : HexagonCPU) :
    (∀ i, (hexagon_dump cpu).1.env.gpr i = cpu.env.gpr i) ∧
    (∀ i, (hexagon_dump cpu).1.env.pred i = cpu.env.pred i) ∧
    (hexagon_dump cpu).1.env.fp_status = cpu.env.fp_status ∧
    (hexagon_dump cpu).1.env.stack_start = cpu.env.stack_start ∧
    (hexagon_dump cpu).1.lldb_compat = cpu.lldb_compat ∧
    (hexagon_dump cpu).1.lldb_stack_adjust = cpu.lldb_stack_adjust ∧
    (hexagon_dump cpu).1.env.last_pc_dumped =
      (if cpu.lldb_compat = true ∧
          cpu.env.gpr HEX_REG_PC ≠ cpu.env.last_pc_dumped
       then cpu.env.gpr HEX_REG_PC else cpu.env.last_pc_dumped) := by
  by_cases hs : cpu.lldb_compat = true ∧
      cpu.env.gpr HEX_REG_PC = cpu.env.last_pc_dumped
  · simp [hexagon_dump, hs, hs.2]
  · by_cases hc : cpu.lldb_compat = true
    · have hne : cpu.env.gpr HEX_REG_PC ≠ cpu.env.last_pc_dumped :=
        fun h => hs ⟨hc, h⟩
      simp [hexagon_dump, hs, hc, hne]
    · simp [hexagon_dump, hs, hc]

/-- C6: fault classification maps fetch, load and store to three pairwise
distinct causes, records the cause and the restart address, and each call
produces exactly the one non-local `FaultExit` (the embedding's return
value; the source function never falls through to normal control flow). -/
theorem C6_tlb_fill_classification :
    (∀ r, hexagon_tlb_fill MMUAccessType.instFetch r =
      { cause := HexExcp.fetchNoUPage, retaddr := r }) ∧
    (∀ r, hexagon_tlb_fill MMUAccessType.dataLoad r =
      { cause := HexExcp.privNoURead, retaddr := r }) ∧
    (∀ r, hexagon_tlb_fill MMUAccessType.dataStore r =
      { cause := HexExcp.privNoUWrite, retaddr := r }) ∧
    HexExcp.fetchNoUPage ≠ HexExcp.privNoURead ∧
    HexExcp.fetchNoUPage ≠ HexExcp.privNoUWrite ∧
    HexExcp.privNoURead ≠ HexExcp.privNoUWrite :=
  ⟨fun _ => rfl, fun _ => rfl, fun _ => rfl,
   by decide, by decide, by decide⟩

/-- C7: reset enables default-NaN mode and tininess-before-rounding for
every prior floating-point configuration, leaves every register, predicate
byte, `stack_start` and `last_pc_dumped` unchanged, and is idempotent. -/
theorem C7_reset (cpu : HexagonCPU) :
    (hexagon_cpu_reset cpu).env.fp_status.default_nan_mode = true ∧
    (hexagon_cpu_reset cpu).env.fp_status.float_detect_tininess =
      Tininess.beforeRounding ∧
    (∀ i, (hexagon_cpu_reset cpu).env.gpr i = cpu.env.gpr i) ∧
    (∀ i, (hexagon_cpu_reset cpu).env.pred i = cpu.env.pred i) ∧
    (hexagon_cpu_reset cpu).env.stack_start = cpu.env.stack_start ∧
    (hexagon_cpu_reset cpu).env.last_pc_dumped = cpu.env.last_pc_dumped ∧
    (hexagon_cpu_reset cpu).lldb_compat = cpu.lldb_compat ∧
    (hexagon_cpu_reset cpu).lldb_stack_adjust = cpu.lldb_stack_adjust ∧
    hexagon_cpu_reset (hexagon_cpu_reset cpu) = hexagon_cpu_reset cpu :=
  ⟨rfl, rfl, fun _ => rfl, fun _ => rfl, rfl, rfl, rfl, rfl, rfl⟩

/-- C8 counterexample: a successful realize leaves `stack_start` at its
prior value (0) even though the stack-pointer register r29 holds
`0x7000`, so realize does not record `stackBase` from the stack pointer. -/
theorem C8_no_stack_base_recording_counterexample :
    (hexagon_cpu_realize cpuR true).realized = true ∧
    cpuR.env.gpr 29 = 0x7000 ∧
    (hexagon_cpu_realize cpuR true).cpu.env.stack_start = 0 ∧
    (hexagon_cpu_realize cpuR true).cpu.env.stack_start ≠ cpuR.env.gpr 29 :=
  ⟨rfl, by decide, by decide, by decide⟩

/-- C8 amended: a successful realize requests scheduling of the core,
performs exactly one implicit reset as the final step before the
`parent_realize` transition to Realized (so the floating-point status ends
in its reset configuration), and does not record `stackBase` (the
register file, `stack_start` included, is changed only by the reset). -/
theorem C8_realize (cpu : HexagonCPU) :
    (hexagon_cpu_realize cpu true).scheduled = true ∧
    (hexagon_cpu_realize cpu true).realized = true ∧
    (hexagon_cpu_realize cpu true).cpu = hexagon_cpu_reset cpu ∧
    (hexagon_cpu_realize cpu true).cpu.env.fp_status.default_nan_mode
      = true ∧
    (hexagon_cpu_realize cpu true).cpu.env.fp_status.float_detect_tininess
      = Tininess.beforeRounding ∧
    (hexagon_cpu_realize cpu true).cpu.env.stack_start
      = cpu.env.stack_start ∧
    (hexagon_cpu_realize cpu true).events =
      [RealizeEvent.execRealizefn, RealizeEvent.initVcpu,
       RealizeEvent.resetCall, RealizeEvent.parentRealize] ∧
    (hexagon_cpu_realize cpu true).events.count RealizeEvent.resetCall
      = 1 :=
  ⟨rfl, rfl, rfl, rfl, rfl, rfl, rfl, rfl⟩

/-- C10: the three PC-writing entry points overwrite only the PC register
and leave every other register, the predicate bytes, the floating-point
status, `stack_start` and `lastDumpedProgramCounter` unchanged. -/
theorem C10_pc_writers_frame (cpu : HexagonCPU) (v : Nat)
    (tb : TranslationBlock) (data : Nat → Nat) (hv : v < 4294967296) :
    (hexagon_cpu_set_pc cpu v).env.gpr HEX_REG_PC = v ∧
    (∀ i, i ≠ HEX_REG_PC →
      (hexagon_cpu_set_pc cpu v).env.gpr i = cpu.env.gpr i) ∧
    (hexagon_cpu_set_pc cpu v).env.pred = cpu.env.pred ∧
    (hexagon_cpu_set_pc cpu v).env.fp_status = cpu.env.fp_status ∧
    (hexagon_cpu_set_pc cpu v).env.stack_start = cpu.env.stack_start ∧
    (hexagon_cpu_set_pc cpu v).env.last_pc_dumped
      = cpu.env.last_pc_dumped ∧
    (hexagon_cpu_synchronize_from_tb cpu tb).env.gpr HEX_REG_PC = tb.pc ∧
    (∀ i, i ≠ HEX_REG_PC →
      (hexagon_cpu_synchronize_from_tb cpu tb).env.gpr i
        = cpu.env.gpr i) ∧
    (hexagon_cpu_synchronize_from_tb cpu tb).env.pred = cpu.env.pred ∧
    (hexagon_cpu_synchronize_from_tb cpu tb).env.fp_status
      = cpu.env.fp_status ∧
    (hexagon_cpu_synchronize_from_tb cpu tb).env.stack_start
      = cpu.env.stack_start ∧
    (hexagon_cpu_synchronize_from_tb cpu tb).env.last_pc_dumped
      = cpu.env.last_pc_dumped ∧
    (restore_state_to_opc cpu data).env.gpr HEX_REG_PC = data 0 ∧
    (∀ i, i ≠ HEX_REG_PC →
      (restore_state_to_opc cpu data).env.gpr i = cpu.env.gpr i) ∧
    (restore_state_to_opc cpu data).env.pred = cpu.env.pred ∧
    (restore_state_to_opc cpu data).env.fp_status = cpu.env.fp_status ∧
    (restore_state_to_opc cpu data).env.stack_start
      = cpu.env.stack_start ∧
    (restore_state_to_opc cpu data).env.last_pc_dumped
      = cpu.env.last_pc_dumped := by
  refine ⟨?_, ?_, rfl, rfl, rfl, rfl, ?_, ?_, rfl, rfl, rfl, rfl,
          ?_, ?_, rfl, rfl, rfl, rfl⟩
  · simp [hexagon_cpu_set_pc, w32, Nat.mod_eq_of_lt hv]
  · intro i hi; simp [hexagon_cpu_set_pc, hi]
  · simp [hexagon_cpu_synchronize_from_tb]
  · intro i hi; simp [hexagon_cpu_synchronize_from_tb, hi]
  · simp [restore_state_to_opc]
  · intro i hi; simp [restore_state_to_opc, hi]

/-- C10 witness: writing PC value 7 into the zeroed CPU. -/
theorem C10_pc_writers_frame_witness :
    (hexagon_cpu_set_pc cpuNC5 7).env.gpr HEX_REG_PC = 7 ∧
    (hexagon_cpu_set_pc cpuNC5 7).env.gpr 0 = cpuNC5.env.gpr 0 :=
  ⟨(C10_pc_writers_frame cpuNC5 7 ⟨3⟩ (fun _ => 0) (by decide)).1,
   (C10_pc_writers_frame cpuNC5 7 ⟨3⟩ (fun _ => 0) (by decide)).2.1 0
     (by decide)⟩

lemma print_reg_lt32 (cpu : HexagonCPU) (i : Nat) (h : i < 32) :
    print_reg cpu i =
      "  " ++ hexagon_regnames.getD i "" ++ " = 0x"
        ++ hex8 (adjust_stack_ptrs cpu (cpu.env.gpr i)) := by
  have hne : i ≠ HEX_REG_P3_0 := by simp only [HEX_REG_P3_0]; omega
  simp only [print_reg, if_neg hne, if_pos h]

lemma regname_lt32 : ∀ i < 32,
    ("  " : String) ++ hexagon_regnames.getD i "" ++ " = 0x"
      = "  r" ++ toString i ++ " = 0x" := by decide

lemma dump_gpr_lines (cpu : HexagonCPU) :
    (List.range 32).map (fun i => print_reg cpu i) =
    (List.range 32).map (fun i =>
      "  r" ++ toString i ++ " = 0x"
        ++ hex8 (adjust_stack_ptrs cpu (cpu.env.gpr i))) := by
  apply List.map_congr_left
  intro i hi
  have h32 : i < 32 := List.mem_range.mp hi
  rw [print_reg_lt32 cpu i h32, regname_lt32 i h32]

/-- C9: every non-suppressed dump emits exactly the header line, the 32
general-purpose lines `r0..r31` in index order (stack-adjusted), the fixed
control sequence sa0, lc0, sa1, lc1, m0, m1, usr, p3_0, gp, ugp, pc, the
four fixed user-only placeholder lines, and the footer. -/
theorem C9_dump_shape (cpu : HexagonCPU)
    (h : ¬(cpu.lldb_compat = true ∧
        cpu.env.gpr HEX_REG_PC = cpu.env.last_pc_dumped)) :
    (hexagon_dump cpu).2 =
      ["General Purpose Registers = \x7b"]
      ++ (List.range 32).map (fun i =>
          "  r" ++ toString i ++ " = 0x"
            ++ hex8 (adjust_stack_ptrs cpu (cpu.env.gpr i)))
      ++ ["  sa0 = 0x" ++ hex8 (cpu.env.gpr 32),
          "  lc0 = 0x" ++ hex8 (cpu.env.gpr 33),
          "  sa1 = 0x" ++ hex8 (cpu.env.gpr 34),
          "  lc1 = 0x" ++ hex8 (cpu.env.gpr 35),
          "  m0 = 0x" ++ hex8 (cpu.env.gpr 38),
          "  m1 = 0x" ++ hex8 (cpu.env.gpr 39),
          "  usr = 0x" ++ hex8 (cpu.env.gpr 40),
          "  p3_0 = 0x" ++ hex8 (read_p3_0 cpu.env),
          "  gp = 0x" ++ hex8 (cpu.env.gpr 43),
          "  ugp = 0x" ++ hex8 (cpu.env.gpr 42),
          "  pc = 0x" ++ hex8 (cpu.env.gpr 41)]
      ++ ["  cause = 0x000000db", "  badva = 0x00000000",
          "  cs0 = 0x00000000", "  cs1 = 0x00000000"]
      ++ ["\x7d"] := by
  show (hexagon_dump cpu).2 = _
  rw [hexagon_dump, if_neg h]
  show dumpLines cpu = _
  rw [dumpLines, dump_gpr_lines cpu]
  rfl

/-- C1 witness: concrete evaluation at the stack base. -/
theorem C1_adjust_window_witness :
    cpuAdj.lldb_stack_adjust ≠ 0 ∧
    adjust_stack_ptrs cpuAdj 0x10000000 = 0x10000000 - cpuAdj.lldb_stack_adjust :=
  ⟨by decide,
   ((C1_adjust_window cpuAdj 0x10000000 (by decide) (by decide)
      (by decide)).2.1 (by decide)).1 ⟨by decide, by decide⟩⟩

/-- C9 witness: concrete dump of the zeroed state with PC 5, compat off. -/
theorem C9_dump_shape_witness :
    (hexagon_dump cpuNC5).2 =
      ["General Purpose Registers = \x7b"]
      ++ (List.range 32).map (fun i =>
          "  r" ++ toString i ++ " = 0x"
            ++ hex8 (adjust_stack_ptrs cpuNC5 (cpuNC5.env.gpr i)))
      ++ ["  sa0 = 0x" ++ hex8 (cpuNC5.env.gpr 32),
          "  lc0 = 0x" ++ hex8 (cpuNC5.env.gpr 33),
          "  sa1 = 0x" ++ hex8 (cpuNC5.env.gpr 34),
          "  lc1 = 0x" ++ hex8 (cpuNC5.env.gpr 35),
          "  m0 = 0x" ++ hex8 (cpuNC5.env.gpr 38),
          "  m1 = 0x" ++ hex8 (cpuNC5.env.gpr 39),
          "  usr = 0x" ++ hex8 (cpuNC5.env.gpr 40),
          "  p3_0 = 0x" ++ hex8 (read_p3_0 cpuNC5.env),
          "  gp = 0x" ++ hex8 (cpuNC5.env.gpr 43),
          "  ugp = 0x" ++ hex8 (cpuNC5.env.gpr 42),
          "  pc = 0x" ++ hex8 (cpuNC5.env.gpr 41)]
      ++ ["  cause = 0x000000db", "  badva = 0x00000000",
          "  cs0 = 0x00000000", "  cs1 = 0x00000000"]
      ++ ["\x7d"] :=
  C9_dump_shape cpuNC5 (by decide)
